import Mathlib

/-!
Shallow embedding of the STIMPL interpreter (`stimpl/runtime.py`): the
interpreter state (a persistent chain of bindings) and the recursive
`evaluate` function, modelled with explicit fuel so that the `While` loop is
total.  Python exceptions become an explicit error result; Python floats are
modelled as exact rationals, and `int(a / b)` as exact division followed by
truncation toward zero.
-/

namespace Stimpl

/-- Runtime type tags from `stimpl/types.py`: `Unit`, `Integer`,
`FloatingPoint`, `String`, `Boolean`. -/
inductive Ty
  | Unit
  | Integer
  | FloatingPoint
  | String
  | Boolean
deriving DecidableEq

/-- Runtime values.  `vNone` is Python's `None` (the payload of `Ren` and of
`Unit`-typed results); floats are modelled as exact rationals. -/
inductive Value
  | vNone
  | vInt (n : Int)
  | vFloat (q : ℚ)
  | vStr (s : String)
  | vBool (b : Bool)
deriving DecidableEq

/-- Interpreter state (`State` / `EmptyState` in `runtime.py`): a persistent
chain of bindings.  Each node holds a name, a (value, type) pair and the
previous state; `emptyState` is the distinguished terminal. -/
inductive State
  | emptyState
  | state (variable_name : String) (variable_value : Value) (variable_type : Ty)
      (next_state : State)
deriving DecidableEq

/-- `State.set_value`: build a new chain head whose `next_state` is the
receiver; the receiver itself is not modified (persistence). -/
def State.set_value (self : State) (variable_name : String) (variable_value : Value)
    (variable_type : Ty) : State :=
  State.state variable_name variable_value variable_type self

/-- `State.get_value` / `EmptyState.get_value`: walk the chain from the head;
the first binding whose name matches wins; `none` at the terminal. -/
def State.get_value : State → String → Option (Value × Ty)
  | .emptyState, _ => none
  | .state n v t next, variable_name =>
    if n = variable_name then some (v, t) else next.get_value variable_name

/-- Names bound anywhere in the chain (used to state the absent-lookup law). -/
def State.boundNames : State → List String
  | .emptyState => []
  | .state n _ _ next => n :: next.boundNames

/-- AST nodes from `stimpl/expression.py` as consumed by `evaluate`.
`Assign`'s first field is the target `Variable` node's `variable_name` (the
interpreter only ever reads `variable.variable_name`); `If`'s branches are the
Python fields named `true` and `false`. -/
inductive Expr
  | Ren
  | IntLiteral (literal : Int)
  | FloatingPointLiteral (literal : ℚ)
  | StringLiteral (literal : String)
  | BooleanLiteral (literal : Bool)
  | Print (to_print : Expr)
  | Sequence (exprs : List Expr)
  | Program (exprs : List Expr)
  | Variable (variable_name : String)
  | Assign (variable_name : String) (value : Expr)
  | Add (left right : Expr)
  | Subtract (left right : Expr)
  | Multiply (left right : Expr)
  | Divide (left right : Expr)
  | And (left right : Expr)
  | Or (left right : Expr)
  | Not (expr : Expr)
  | If (condition : Expr) (true_branch : Expr) (false_branch : Expr)
  | Lt (left right : Expr)
  | Lte (left right : Expr)
  | Gt (left right : Expr)
  | Gte (left right : Expr)
  | Eq (left right : Expr)
  | Ne (left right : Expr)
  | While (condition : Expr) (body : Expr)

/-- Evaluation failures.  The three `interp*` constructors are the classified
interpreter errors from `stimpl/errors.py`.  `unboundLocalError` models the
host-level Python `UnboundLocalError` raised when a local variable is read
before assignment (the empty `Sequence`/`Program` case); `hostTypeError`
models a host-level Python `TypeError` from operand shapes that the type-tag
dispatch cannot actually produce. -/
inductive EvalError
  | interpSyntaxError (msg : String)
  | interpTypeError (msg : String)
  | interpMathError
  | unboundLocalError (local_name : String)
  | hostTypeError
deriving DecidableEq

/-- Outcome of running the fuelled interpreter: a `(value, type, state)`
triple, an error, or fuel exhaustion (`timeout`, which the Python original
cannot report: it would simply still be running). -/
inductive Result
  | ok (value : Value) (ty : Ty) (state : State)
  | err (e : EvalError)
  | timeout
deriving DecidableEq

/-- Python truthiness of a runtime value (drives `if`, `while`, `and`, `or`,
`not`). -/
def Value.truthy : Value → Bool
  | .vNone => false
  | .vInt n => decide (n ≠ 0)
  | .vFloat q => decide (q ≠ 0)
  | .vStr s => decide (s ≠ "")
  | .vBool b => b

/-- Python `v == 0`: numeric equality, under which `False == 0` holds. -/
def Value.pyEqIntZero : Value → Bool
  | .vInt n => decide (n = 0)
  | .vFloat q => decide (q = 0)
  | .vBool b => !b
  | _ => false

/-- Python `v == 0.0`: numeric equality across `int`, `float` and `bool`. -/
def Value.pyEqFloatZero : Value → Bool
  | .vInt n => decide (n = 0)
  | .vFloat q => decide (q = 0)
  | .vBool b => !b
  | _ => false

/-- Python `a and b`: `a` if `a` is falsy, else `b`. -/
def pyAnd (a b : Value) : Value := if a.truthy then b else a

/-- Python `a or b`: `a` if `a` is truthy, else `b`. -/
def pyOr (a b : Value) : Value := if a.truthy then a else b

/-- Python `a + b` on the value shapes the `Add` tags (`Integer`, `String`,
`FloatingPoint`) can carry; `none` stands for a host-level error on shapes the
tag dispatch cannot produce. -/
def pyAdd : Value → Value → Option Value
  | .vInt a, .vInt b => some (.vInt (a + b))
  | .vFloat a, .vFloat b => some (.vFloat (a + b))
  | .vInt a, .vFloat b => some (.vFloat ((a : ℚ) + b))
  | .vFloat a, .vInt b => some (.vFloat (a + (b : ℚ)))
  | .vStr a, .vStr b => some (.vStr (a ++ b))
  | _, _ => none

/-- Python `a - b` on numeric shapes. -/
def pySub : Value → Value → Option Value
  | .vInt a, .vInt b => some (.vInt (a - b))
  | .vFloat a, .vFloat b => some (.vFloat (a - b))
  | .vInt a, .vFloat b => some (.vFloat ((a : ℚ) - b))
  | .vFloat a, .vInt b => some (.vFloat (a - (b : ℚ)))
  | _, _ => none

/-- Python `a * b` on numeric shapes. -/
def pyMul : Value → Value → Option Value
  | .vInt a, .vInt b => some (.vInt (a * b))
  | .vFloat a, .vFloat b => some (.vFloat (a * b))
  | .vInt a, .vFloat b => some (.vFloat ((a : ℚ) * b))
  | .vFloat a, .vInt b => some (.vFloat (a * (b : ℚ)))
  | _, _ => none

/-- Python `a / b` (true division, float-valued) as an exact rational. -/
def pyDiv : Value → Value → Option ℚ
  | .vInt a, .vInt b => some ((a : ℚ) / (b : ℚ))
  | .vFloat a, .vFloat b => some (a / b)
  | .vInt a, .vFloat b => some ((a : ℚ) / b)
  | .vFloat a, .vInt b => some (a / (b : ℚ))
  | _, _ => none

/-- Python `int(q)`: truncation toward zero. -/
def ratTrunc (q : ℚ) : Int := if 0 ≤ q then ⌊q⌋ else -⌊-q⌋

/-- Python `a < b` on same-shape operands (plus the `int`/`float` mixes);
booleans compare as the integers 0 and 1. -/
def pyLt : Value → Value → Option Bool
  | .vInt a, .vInt b => some (decide (a < b))
  | .vFloat a, .vFloat b => some (decide (a < b))
  | .vInt a, .vFloat b => some (decide ((a : ℚ) < b))
  | .vFloat a, .vInt b => some (decide (a < (b : ℚ)))
  | .vStr a, .vStr b => some (decide (a < b))
  | .vBool a, .vBool b => some (decide ((if a then 1 else 0) < (if b then (1 : Nat) else 0)))
  | _, _ => none

/-- Python `a <= b`, same coverage as `pyLt`. -/
def pyLte : Value → Value → Option Bool
  | .vInt a, .vInt b => some (decide (a ≤ b))
  | .vFloat a, .vFloat b => some (decide (a ≤ b))
  | .vInt a, .vFloat b => some (decide ((a : ℚ) ≤ b))
  | .vFloat a, .vInt b => some (decide (a ≤ (b : ℚ)))
  | .vStr a, .vStr b => some (decide (a ≤ b))
  | .vBool a, .vBool b => some (decide ((if a then 1 else 0) ≤ (if b then (1 : Nat) else 0)))
  | _, _ => none

/-- Python `a > b`, same coverage as `pyLt`. -/
def pyGt : Value → Value → Option Bool
  | .vInt a, .vInt b => some (decide (b < a))
  | .vFloat a, .vFloat b => some (decide (b < a))
  | .vInt a, .vFloat b => some (decide (b < (a : ℚ)))
  | .vFloat a, .vInt b => some (decide ((b : ℚ) < a))
  | .vStr a, .vStr b => some (decide (b < a))
  | .vBool a, .vBool b => some (decide ((if b then 1 else 0) < (if a then (1 : Nat) else 0)))
  | _, _ => none

/-- Python `a >= b`, same coverage as `pyLt`. -/
def pyGte : Value → Value → Option Bool
  | .vInt a, .vInt b => some (decide (b ≤ a))
  | .vFloat a, .vFloat b => some (decide (b ≤ a))
  | .vInt a, .vFloat b => some (decide (b ≤ (a : ℚ)))
  | .vFloat a, .vInt b => some (decide ((b : ℚ) ≤ a))
  | .vStr a, .vStr b => some (decide (b ≤ a))
  | .vBool a, .vBool b => some (decide ((if b then 1 else 0) ≤ (if a then (1 : Nat) else 0)))
  | _, _ => none

/-- Python `a == b` on same-shape operands (plus numeric mixes); `==` never
raises in Python, so this is total. -/
def pyEqV : Value → Value → Bool
  | .vInt a, .vInt b => decide (a = b)
  | .vFloat a, .vFloat b => decide (a = b)
  | .vInt a, .vFloat b => decide ((a : ℚ) = b)
  | .vFloat a, .vInt b => decide (a = (b : ℚ))
  | .vStr a, .vStr b => decide (a = b)
  | .vBool a, .vBool b => a == b
  | .vNone, .vNone => true
  | _, _ => false

/-- Sequencing with exception propagation: run the continuation on a normal
triple; an error (the Python exception unwinding) or fuel exhaustion
propagates unchanged. -/
def Result.andThen (r : Result) (k : Value → Ty → State → Result) : Result :=
  match r with
  | .ok v t s => k v t s
  | .err e => .err e
  | .timeout => .timeout

/-- Classifier for the `InterpTypeError` error class. -/
def Result.isInterpTypeError : Result → Bool
  | .err (.interpTypeError _) => true
  | _ => false

mutual

/-- Shallow embedding of `evaluate(expression, state)` from
`stimpl/runtime.py`.  `fuel` bounds recursion depth and loop iterations so
the function is total; every run that terminates in Python succeeds here for
all sufficiently large fuel, and fuel exhaustion is `.timeout`.  Error
messages abbreviate the source's interpolated strings. -/
def evaluate : Nat → Expr → State → Result
  | 0, _, _ => .timeout
  | fuel + 1, expression, s =>
    match expression with
    | .Ren => .ok .vNone .Unit s
    | .IntLiteral l => .ok (.vInt l) .Integer s
    | .FloatingPointLiteral l => .ok (.vFloat l) .FloatingPoint s
    | .StringLiteral l => .ok (.vStr l) .String s
    | .BooleanLiteral l => .ok (.vBool l) .Boolean s
    | .Print to_print =>
      -- the source also prints the value (or the text "Unit"): an I/O effect
      -- with no bearing on the returned triple
      (evaluate fuel to_print s).andThen fun printable_value printable_type new_state =>
        .ok printable_value printable_type new_state
    | .Sequence exprs => evalSequence fuel exprs s
    | .Program exprs => evalSequence fuel exprs s
    | .Variable variable_name =>
      match s.get_value variable_name with
      | none =>
        .err (.interpSyntaxError ("Cannot read from " ++ variable_name ++ " before assignment."))
      | some (variable_value, variable_type) => .ok variable_value variable_type s
    | .Assign variable_name value =>
      (evaluate fuel value s).andThen fun value_result value_type new_state =>
        match new_state.get_value variable_name with
        | some (_, variable_type) =>
          if value_type ≠ variable_type then
            .err (.interpTypeError "Mismatched types for Assignment")
          else
            .ok value_result value_type
              (new_state.set_value variable_name value_result value_type)
        | none =>
          .ok value_result value_type
            (new_state.set_value variable_name value_result value_type)
    | .Add left right =>
      (evaluate fuel left s).andThen fun left_result left_type new_state =>
      (evaluate fuel right new_state).andThen fun right_result right_type new_state =>
        if left_type ≠ right_type then .err (.interpTypeError "Mismatched types for Add")
        else match left_type with
          | .Integer | .String | .FloatingPoint =>
            match pyAdd left_result right_result with
            | some result => .ok result left_type new_state
            | none => .err .hostTypeError
          | _ => .err (.interpTypeError "Cannot add")
    | .Subtract left right =>
      (evaluate fuel left s).andThen fun left_result left_type new_state =>
      (evaluate fuel right new_state).andThen fun right_result right_type new_state =>
        if left_type ≠ right_type then .err (.interpTypeError "Mismatched types for Subtract")
        else match left_type with
          | .Integer | .FloatingPoint =>
            match pySub left_result right_result with
            | some result => .ok result left_type new_state
            | none => .err .hostTypeError
          | _ => .err (.interpTypeError "Cannot subtract")
    | .Multiply left right =>
      (evaluate fuel left s).andThen fun left_result left_type new_state =>
      (evaluate fuel right new_state).andThen fun right_result right_type new_state =>
        if left_type ≠ right_type then .err (.interpTypeError "Mismatched types for Multiply")
        else match left_type with
          | .Integer | .FloatingPoint =>
            match pyMul left_result right_result with
            | some result => .ok result left_type new_state
            | none => .err .hostTypeError
          | _ => .err (.interpTypeError "Cannot multiply")
    | .Divide left right =>
      (evaluate fuel left s).andThen fun left_result left_type new_state =>
      (evaluate fuel right new_state).andThen fun right_result right_type new_state =>
        if left_type ≠ right_type then .err (.interpTypeError "Mismatched types for Divide")
        else if right_result.pyEqIntZero || right_result.pyEqFloatZero then
          .err .interpMathError
        else match left_type with
          | .Integer =>
            -- the source re-tests `right_result != 0 or right_result != 0.0`,
            -- which can no longer be false here; on its dead false branch the
            -- local `result` would be unbound at the return statement
            if !right_result.pyEqIntZero || !right_result.pyEqFloatZero then
              match pyDiv left_result right_result with
              | some q => .ok (.vInt (ratTrunc q)) left_type new_state
              | none => .err .hostTypeError
            else .err (.unboundLocalError "result")
          | .FloatingPoint =>
            if !right_result.pyEqIntZero || !right_result.pyEqFloatZero then
              match pyDiv left_result right_result with
              | some q => .ok (.vFloat q) left_type new_state
              | none => .err .hostTypeError
            else .err (.unboundLocalError "result")
          | _ => .err (.interpTypeError "Cannot divide")
    | .And left right =>
      (evaluate fuel left s).andThen fun left_value left_type new_state =>
      (evaluate fuel right new_state).andThen fun right_value right_type new_state =>
        if left_type ≠ right_type then .err (.interpTypeError "Mismatched types for And")
        else match left_type with
          | .Boolean => .ok (pyAnd left_value right_value) left_type new_state
          | _ => .err (.interpTypeError "Cannot perform logical and on non-boolean operands.")
    | .Or left right =>
      (evaluate fuel left s).andThen fun left_value left_type new_state =>
      (evaluate fuel right new_state).andThen fun right_value right_type new_state =>
        if left_type ≠ right_type then .err (.interpTypeError "Mismatched types for Or")
        else match left_type with
          | .Boolean => .ok (pyOr left_value right_value) left_type new_state
          | _ => .err (.interpTypeError "Cannot perform logical or on non-boolean operands.")
    | .Not expr =>
      (evaluate fuel expr s).andThen fun expr_value expr_type new_state =>
        match expr_type with
        | .Boolean => .ok (.vBool (!expr_value.truthy)) expr_type new_state
        | _ => .err (.interpTypeError "Cannot perform logical not on non-boolean operand.")
    | .If condition true_branch false_branch =>
      (evaluate fuel condition s).andThen fun condition_value condition_type new_state =>
        match condition_type with
        | .Boolean =>
          if condition_value.truthy then evaluate fuel true_branch new_state
          else evaluate fuel false_branch new_state
        | _ => .err (.interpTypeError "Invalid type for if condition")
    | .Lt left right =>
      (evaluate fuel left s).andThen fun left_value left_type new_state =>
      (evaluate fuel right new_state).andThen fun right_value right_type new_state =>
        if left_type ≠ right_type then .err (.interpTypeError "Mismatched types for Lt")
        else match left_type with
          | .Integer | .Boolean | .String | .FloatingPoint =>
            match pyLt left_value right_value with
            | some result => .ok (.vBool result) .Boolean new_state
            | none => .err .hostTypeError
          | .Unit => .ok (.vBool false) .Boolean new_state
    | .Lte left right =>
      (evaluate fuel left s).andThen fun left_value left_type new_state =>
      (evaluate fuel right new_state).andThen fun right_value right_type new_state =>
        if left_type ≠ right_type then .err (.interpTypeError "Mismatched types for Lte")
        else match left_type with
          | .Integer | .Boolean | .String | .FloatingPoint =>
            match pyLte left_value right_value with
            | some result => .ok (.vBool result) .Boolean new_state
            | none => .err .hostTypeError
          | .Unit => .ok (.vBool true) .Boolean new_state
    | .Gt left right =>
      (evaluate fuel left s).andThen fun left_value left_type new_state =>
      (evaluate fuel right new_state).andThen fun right_value right_type new_state =>
        if left_type ≠ right_type then .err (.interpTypeError "Mismatched types for Gt")
        else match left_type with
          | .Integer | .Boolean | .String | .FloatingPoint =>
            match pyGt left_value right_value with
            | some result => .ok (.vBool result) .Boolean new_state
            | none => .err .hostTypeError
          | .Unit => .ok (.vBool false) .Boolean new_state
    | .Gte left right =>
      (evaluate fuel left s).andThen fun left_value left_type new_state =>
      (evaluate fuel right new_state).andThen fun right_value right_type new_state =>
        if left_type ≠ right_type then .err (.interpTypeError "Mismatched types for Gte")
        else match left_type with
          | .Integer | .Boolean | .String | .FloatingPoint =>
            match pyGte left_value right_value with
            | some result => .ok (.vBool result) .Boolean new_state
            | none => .err .hostTypeError
          | .Unit => .ok (.vBool true) .Boolean new_state
    | .Eq left right =>
      (evaluate fuel left s).andThen fun left_value left_type new_state =>
      (evaluate fuel right new_state).andThen fun right_value right_type new_state =>
        if left_type ≠ right_type then .err (.interpTypeError "Mismatched types for Eq")
        else match left_type with
          | .Integer | .Boolean | .String | .FloatingPoint =>
            .ok (.vBool (pyEqV left_value right_value)) .Boolean new_state
          | .Unit => .ok (.vBool true) .Boolean new_state
    | .Ne left right =>
      (evaluate fuel left s).andThen fun left_value left_type new_state =>
      (evaluate fuel right new_state).andThen fun right_value right_type new_state =>
        if left_type ≠ right_type then .err (.interpTypeError "Mismatched types for Ne")
        else match left_type with
          | .Integer | .Boolean | .String | .FloatingPoint =>
            .ok (.vBool (!pyEqV left_value right_value)) .Boolean new_state
          | .Unit => .ok (.vBool false) .Boolean new_state
    | .While condition body =>
      (evaluate fuel condition s).andThen fun condition_value condition_type new_state =>
        match condition_type with
        | .Boolean => whileLoop fuel condition body condition_value condition_type new_state
        | _ => .err (.interpTypeError "Invalid type for while condition")

/-- The `for expr in exprs` loop of the `Sequence`/`Program` case: evaluate
each expression in order, threading the state; the triple of the last one is
returned.  On an empty list the loop body never runs, and the subsequent
`return (value, expr_type, state)` reads the never-assigned local `value`: a
host-level `UnboundLocalError`, not a classified interpreter error. -/
def evalSequence : Nat → List Expr → State → Result
  | _, [], _ => .err (.unboundLocalError "value")
  | 0, _ :: _, _ => .timeout
  | fuel + 1, [expr], s => evaluate fuel expr s
  | fuel + 1, expr :: rest, s =>
    (evaluate fuel expr s).andThen fun _ _ s1 => evalSequence fuel rest s1

/-- The `while condition_value:` loop of the `While` case.  The condition's
TYPE is examined only once, before this loop is entered: each iteration
evaluates the body and then the condition, and iteration continues on the new
condition value's truthiness alone; when that value is falsy the loop returns
`(False, condition_type, new_state)` with whatever type tag the most recent
condition evaluation produced. -/
def whileLoop : Nat → Expr → Expr → Value → Ty → State → Result
  | 0, _, _, condition_value, condition_type, new_state =>
    if condition_value.truthy then .timeout
    else .ok (.vBool false) condition_type new_state
  | fuel + 1, condition, body, condition_value, condition_type, new_state =>
    if condition_value.truthy then
      (evaluate fuel body new_state).andThen fun _ _ s1 =>
      (evaluate fuel condition s1).andThen fun cv ct s2 =>
        whileLoop fuel condition body cv ct s2
    else .ok (.vBool false) condition_type new_state

end

/-- Entry point `run_stimpl(program)`: evaluate the root node in the empty
state (the debug printing is an I/O effect outside the model). -/
def run_stimpl (fuel : Nat) (program : Expr) : Result :=
  evaluate fuel program .emptyState

/-- Inversion for `Result.andThen`: a normal outcome of the composite comes
from a normal outcome of the first computation fed to the continuation. -/
theorem Result.andThen_eq_ok {r : Result} {k : Value → Ty → State → Result} {v : Value}
    {t : Ty} {s' : State} (h : r.andThen k = .ok v t s') :
    ∃ v1 t1 s1, r = .ok v1 t1 s1 ∧ k v1 t1 s1 = .ok v t s' := by
  cases r with
  | ok v1 t1 s1 => exact ⟨v1, t1, s1, rfl, h⟩
  | err e => exact Result.noConfusion h
  | timeout => exact Result.noConfusion h

/-- Relation between two states: every name bound in the first is still bound
in the second with the same type tag (possibly a different value). -/
def typesOk (s s' : State) : Prop :=
  ∀ n w ty, s.get_value n = some (w, ty) → ∃ w', s'.get_value n = some (w', ty)

theorem typesOk_refl (s : State) : typesOk s s := fun _ w _ h => ⟨w, h⟩

theorem typesOk_trans {a b c : State} (h1 : typesOk a b) (h2 : typesOk b c) :
    typesOk a c := by
  intro n w ty h
  obtain ⟨w', hb⟩ := h1 n w ty h
  exact h2 n w' ty hb

theorem typesOk_set_same {s : State} {n : String} {w : Value} {t : Ty} (v : Value)
    (h : s.get_value n = some (w, t)) : typesOk s (s.set_value n v t) := by
  intro m w0 ty0 hm
  by_cases hmn : n = m
  · subst hmn
    rw [hm] at h
    refine ⟨v, ?_⟩
    simp only [State.set_value, State.get_value, if_pos rfl]
    obtain ⟨-, rfl⟩ := Prod.mk.injEq .. ▸ Option.some.injEq .. ▸ h
    rfl
  · exact ⟨w0, by simpa [State.set_value, State.get_value, hmn] using hm⟩

theorem typesOk_set_new {s : State} {n : String} (v : Value) (t : Ty)
    (h : s.get_value n = none) : typesOk s (s.set_value n v t) := by
  intro m w0 ty0 hm
  by_cases hmn : n = m
  · subst hmn
    rw [hm] at h
    exact Option.noConfusion h
  · exact ⟨w0, by simpa [State.set_value, State.get_value, hmn] using hm⟩

/-- Type preservation: one evaluation step (of an expression, an expression
list, or the while loop) never changes the type tag associated with a name
that is already bound in the incoming state. -/
theorem evaluate_typesOk :
    ∀ fuel,
      (∀ e s v t s', evaluate fuel e s = .ok v t s' → typesOk s s') ∧
      (∀ l s v t s', evalSequence fuel l s = .ok v t s' → typesOk s s') ∧
      (∀ c b cv ct s v t s', whileLoop fuel c b cv ct s = .ok v t s' → typesOk s s') := by
  intro fuel
  induction fuel with
  | zero =>
    refine ⟨?_, ?_, ?_⟩
    · intro e s v t s' h
      exact Result.noConfusion h
    · intro l s v t s' h
      cases l with
      | nil =>
        simp only [evalSequence] at h
        exact Result.noConfusion h
      | cons e rest => exact Result.noConfusion h
    · intro c b cv ct s v t s' h
      cases hcv : cv.truthy
      · simp only [whileLoop, hcv, Bool.false_eq_true, if_false] at h
        obtain ⟨rfl, rfl, rfl⟩ := (Result.ok.injEq ..).mp h
        exact typesOk_refl s
      · simp only [whileLoop, hcv, if_true] at h
        exact Result.noConfusion h
  | succ fuel ih =>
    obtain ⟨ihE, ihS, ihW⟩ := ih
    refine ⟨?_, ?_, ?_⟩
    · intro e s v t s' h
      cases e with
      | Ren =>
        simp only [evaluate] at h
        obtain ⟨rfl, rfl, rfl⟩ := (Result.ok.injEq ..).mp h
        exact typesOk_refl s
      | IntLiteral l =>
        simp only [evaluate] at h
        obtain ⟨rfl, rfl, rfl⟩ := (Result.ok.injEq ..).mp h
        exact typesOk_refl s
      | FloatingPointLiteral l =>
        simp only [evaluate] at h
        obtain ⟨rfl, rfl, rfl⟩ := (Result.ok.injEq ..).mp h
        exact typesOk_refl s
      | StringLiteral l =>
        simp only [evaluate] at h
        obtain ⟨rfl, rfl, rfl⟩ := (Result.ok.injEq ..).mp h
        exact typesOk_refl s
      | BooleanLiteral l =>
        simp only [evaluate] at h
        obtain ⟨rfl, rfl, rfl⟩ := (Result.ok.injEq ..).mp h
        exact typesOk_refl s
      | Print to_print =>
        simp only [evaluate] at h
        obtain ⟨v1, t1, s1, hP, h⟩ := Result.andThen_eq_ok h
        obtain ⟨rfl, rfl, rfl⟩ := (Result.ok.injEq ..).mp h
        exact ihE to_print s v1 t1 s1 hP
      | Sequence exprs =>
        simp only [evaluate] at h
        exact ihS exprs s v t s' h
      | Program exprs =>
        simp only [evaluate] at h
        exact ihS exprs s v t s' h
      | Variable variable_name =>
        simp only [evaluate] at h
        split at h
        · exact Result.noConfusion h
        · obtain ⟨rfl, rfl, rfl⟩ := (Result.ok.injEq ..).mp h
          exact typesOk_refl s
      | Assign variable_name value =>
        simp only [evaluate] at h
        obtain ⟨v1, t1, s1, hV, h⟩ := Result.andThen_eq_ok h
        have tV := ihE value s v1 t1 s1 hV
        rcases hget : s1.get_value variable_name with - | ⟨w, vt⟩ <;>
          simp only [hget] at h
        · obtain ⟨rfl, rfl, rfl⟩ := (Result.ok.injEq ..).mp h
          exact typesOk_trans tV (typesOk_set_new v1 t1 hget)
        · split at h
          · exact Result.noConfusion h
          · next hne =>
            obtain ⟨rfl, rfl, rfl⟩ := (Result.ok.injEq ..).mp h
            have ht : t1 = vt := not_not.mp hne
            exact typesOk_trans tV (typesOk_set_same v1 (ht.symm ▸ hget))
      | Add left right =>
        simp only [evaluate] at h
        obtain ⟨lv, lt, s1, hL, h⟩ := Result.andThen_eq_ok h
        obtain ⟨rv, rt, s2, hR, h⟩ := Result.andThen_eq_ok h
        have hs : typesOk s s2 :=
          typesOk_trans (ihE left s lv lt s1 hL) (ihE right s1 rv rt s2 hR)
        repeat' split at h
        all_goals first
          | exact Result.noConfusion h
          | (obtain ⟨rfl, rfl, rfl⟩ := (Result.ok.injEq ..).mp h; exact hs)
      | Subtract left right =>
        simp only [evaluate] at h
        obtain ⟨lv, lt, s1, hL, h⟩ := Result.andThen_eq_ok h
        obtain ⟨rv, rt, s2, hR, h⟩ := Result.andThen_eq_ok h
        have hs : typesOk s s2 :=
          typesOk_trans (ihE left s lv lt s1 hL) (ihE right s1 rv rt s2 hR)
        repeat' split at h
        all_goals first
          | exact Result.noConfusion h
          | (obtain ⟨rfl, rfl, rfl⟩ := (Result.ok.injEq ..).mp h; exact hs)
      | Multiply left right =>
        simp only [evaluate] at h
        obtain ⟨lv, lt, s1, hL, h⟩ := Result.andThen_eq_ok h
        obtain ⟨rv, rt, s2, hR, h⟩ := Result.andThen_eq_ok h
        have hs : typesOk s s2 :=
          typesOk_trans (ihE left s lv lt s1 hL) (ihE right s1 rv rt s2 hR)
        repeat' split at h
        all_goals first
          | exact Result.noConfusion h
          | (obtain ⟨rfl, rfl, rfl⟩ := (Result.ok.injEq ..).mp h; exact hs)
      | Divide left right =>
        simp only [evaluate] at h
        obtain ⟨lv, lt, s1, hL, h⟩ := Result.andThen_eq_ok h
        obtain ⟨rv, rt, s2, hR, h⟩ := Result.andThen_eq_ok h
        have hs : typesOk s s2 :=
          typesOk_trans (ihE left s lv lt s1 hL) (ihE right s1 rv rt s2 hR)
        repeat' split at h
        all_goals first
          | exact Result.noConfusion h
          | (obtain ⟨rfl, rfl, rfl⟩ := (Result.ok.injEq ..).mp h; exact hs)
      | And left right =>
        simp only [evaluate] at h
        obtain ⟨lv, lt, s1, hL, h⟩ := Result.andThen_eq_ok h
        obtain ⟨rv, rt, s2, hR, h⟩ := Result.andThen_eq_ok h
        have hs : typesOk s s2 :=
          typesOk_trans (ihE left s lv lt s1 hL) (ihE right s1 rv rt s2 hR)
        repeat' split at h
        all_goals first
          | exact Result.noConfusion h
          | (obtain ⟨rfl, rfl, rfl⟩ := (Result.ok.injEq ..).mp h; exact hs)
      | Or left right =>
        simp only [evaluate] at h
        obtain ⟨lv, lt, s1, hL, h⟩ := Result.andThen_eq_ok h
        obtain ⟨rv, rt, s2, hR, h⟩ := Result.andThen_eq_ok h
        have hs : typesOk s s2 :=
          typesOk_trans (ihE left s lv lt s1 hL) (ihE right s1 rv rt s2 hR)
        repeat' split at h
        all_goals first
          | exact Result.noConfusion h
          | (obtain ⟨rfl, rfl, rfl⟩ := (Result.ok.injEq ..).mp h; exact hs)
      | Not expr =>
        simp only [evaluate] at h
        obtain ⟨v1, t1, s1, hV, h⟩ := Result.andThen_eq_ok h
        have hs := ihE expr s v1 t1 s1 hV
        repeat' split at h
        all_goals first
          | exact Result.noConfusion h
          | (obtain ⟨rfl, rfl, rfl⟩ := (Result.ok.injEq ..).mp h; exact hs)
      | If condition true_branch false_branch =>
        simp only [evaluate] at h
        obtain ⟨cv, ct, s1, hC, h⟩ := Result.andThen_eq_ok h
        have tC := ihE condition s cv ct s1 hC
        split at h
        · split at h
          · exact typesOk_trans tC (ihE true_branch s1 v t s' h)
          · exact typesOk_trans tC (ihE false_branch s1 v t s' h)
        · exact Result.noConfusion h
      | Lt left right =>
        simp only [evaluate] at h
        obtain ⟨lv, lt, s1, hL, h⟩ := Result.andThen_eq_ok h
        obtain ⟨rv, rt, s2, hR, h⟩ := Result.andThen_eq_ok h
        have hs : typesOk s s2 :=
          typesOk_trans (ihE left s lv lt s1 hL) (ihE right s1 rv rt s2 hR)
        repeat' split at h
        all_goals first
          | exact Result.noConfusion h
          | (obtain ⟨rfl, rfl, rfl⟩ := (Result.ok.injEq ..).mp h; exact hs)
      | Lte left right =>
        simp only [evaluate] at h
        obtain ⟨lv, lt, s1, hL, h⟩ := Result.andThen_eq_ok h
        obtain ⟨rv, rt, s2, hR, h⟩ := Result.andThen_eq_ok h
        have hs : typesOk s s2 :=
          typesOk_trans (ihE left s lv lt s1 hL) (ihE right s1 rv rt s2 hR)
        repeat' split at h
        all_goals first
          | exact Result.noConfusion h
          | (obtain ⟨rfl, rfl, rfl⟩ := (Result.ok.injEq ..).mp h; exact hs)
      | Gt left right =>
        simp only [evaluate] at h
        obtain ⟨lv, lt, s1, hL, h⟩ := Result.andThen_eq_ok h
        obtain ⟨rv, rt, s2, hR, h⟩ := Result.andThen_eq_ok h
        have hs : typesOk s s2 :=
          typesOk_trans (ihE left s lv lt s1 hL) (ihE right s1 rv rt s2 hR)
        repeat' split at h
        all_goals first
          | exact Result.noConfusion h
          | (obtain ⟨rfl, rfl, rfl⟩ := (Result.ok.injEq ..).mp h; exact hs)
      | Gte left right =>
        simp only [evaluate] at h
        obtain ⟨lv, lt, s1, hL, h⟩ := Result.andThen_eq_ok h
        obtain ⟨rv, rt, s2, hR, h⟩ := Result.andThen_eq_ok h
        have hs : typesOk s s2 :=
          typesOk_trans (ihE left s lv lt s1 hL) (ihE right s1 rv rt s2 hR)
        repeat' split at h
        all_goals first
          | exact Result.noConfusion h
          | (obtain ⟨rfl, rfl, rfl⟩ := (Result.ok.injEq ..).mp h; exact hs)
      | Eq left right =>
        simp only [evaluate] at h
        obtain ⟨lv, lt, s1, hL, h⟩ := Result.andThen_eq_ok h
        obtain ⟨rv, rt, s2, hR, h⟩ := Result.andThen_eq_ok h
        have hs : typesOk s s2 :=
          typesOk_trans (ihE left s lv lt s1 hL) (ihE right s1 rv rt s2 hR)
        repeat' split at h
        all_goals first
          | exact Result.noConfusion h
          | (obtain ⟨rfl, rfl, rfl⟩ := (Result.ok.injEq ..).mp h; exact hs)
      | Ne left right =>
        simp only [evaluate] at h
        obtain ⟨lv, lt, s1, hL, h⟩ := Result.andThen_eq_ok h
        obtain ⟨rv, rt, s2, hR, h⟩ := Result.andThen_eq_ok h
        have hs : typesOk s s2 :=
          typesOk_trans (ihE left s lv lt s1 hL) (ihE right s1 rv rt s2 hR)
        repeat' split at h
        all_goals first
          | exact Result.noConfusion h
          | (obtain ⟨rfl, rfl, rfl⟩ := (Result.ok.injEq ..).mp h; exact hs)
      | While condition body =>
        simp only [evaluate] at h
        obtain ⟨cv, ct, s1, hC, h⟩ := Result.andThen_eq_ok h
        have tC := ihE condition s cv ct s1 hC
        split at h
        · exact typesOk_trans tC (ihW condition body cv _ s1 v t s' h)
        · exact Result.noConfusion h
    · intro l s v t s' h
      cases l with
      | nil =>
        simp only [evalSequence] at h
        exact Result.noConfusion h
      | cons e rest =>
        cases rest with
        | nil =>
          simp only [evalSequence] at h
          exact ihE e s v t s' h
        | cons e2 rest2 =>
          simp only [evalSequence] at h
          obtain ⟨v1, t1, s1, h1, h⟩ := Result.andThen_eq_ok h
          exact typesOk_trans (ihE e s v1 t1 s1 h1) (ihS (e2 :: rest2) s1 v t s' h)
    · intro c b cv ct s v t s' h
      cases hcv : cv.truthy
      · simp only [whileLoop, hcv, Bool.false_eq_true, if_false] at h
        obtain ⟨rfl, rfl, rfl⟩ := (Result.ok.injEq ..).mp h
        exact typesOk_refl s
      · simp only [whileLoop, hcv, if_true] at h
        obtain ⟨v1, t1, s1, h1, h⟩ := Result.andThen_eq_ok h
        obtain ⟨cv2, ct2, s2, h2, h⟩ := Result.andThen_eq_ok h
        exact typesOk_trans (ihE b s v1 t1 s1 h1)
          (typesOk_trans (ihE c s1 cv2 ct2 s2 h2) (ihW c b cv2 ct2 s2 v t s' h))

/-- Lookup returns `none` when the name occurs nowhere in the chain. -/
theorem get_value_eq_none_of_not_bound :
    ∀ (e : State) (m : String), m ∉ e.boundNames → e.get_value m = none := by
  intro e m
  induction e with
  | emptyState => intro _; rfl
  | state n0 v0 t0 next ih =>
    intro hm
    simp only [State.boundNames, List.mem_cons, not_or] at hm
    simp [State.get_value, Ne.symm hm.1, ih hm.2]

/-- C1: environment lookup/extend contract.  Looking up `n` in
`extend(e, n, v, t)` returns `(v, t)`; looking up any other name `m` returns
what looking up `m` in `e` returns; lookup of a never-bound name is absent;
and `extend` builds a fresh head node whose predecessor is the old handle `e`
itself, so the results observable through `e` are untouched (persistence is
literal here: `e` is a value that `set_value` never modifies). -/
theorem env_lookup_extend_contract :
    ∀ (e : State) (n : String) (v : Value) (t : Ty) (m : String),
      (e.set_value n v t).get_value n = some (v, t) ∧
      (m ≠ n → (e.set_value n v t).get_value m = e.get_value m) ∧
      (m ∉ e.boundNames → e.get_value m = none) ∧
      e.set_value n v t = State.state n v t e := by
  intro e n v t m
  refine ⟨?_, ?_, ?_, rfl⟩
  · simp [State.set_value, State.get_value]
  · intro hmn
    simp [State.set_value, State.get_value, Ne.symm hmn]
  · exact get_value_eq_none_of_not_bound e m

/-- Witness for C1 at a concrete environment, with every hypothesis
discharged: `e = [a ↦ (1, Integer)]`, `n = "b"`, `m = "c"`. -/
theorem env_lookup_extend_contract_witness :
    ((State.emptyState.set_value "a" (.vInt 1) .Integer).set_value "b" (.vStr "s")
          .String).get_value "b"
      = some (.vStr "s", .String) ∧
    ((State.emptyState.set_value "a" (.vInt 1) .Integer).set_value "b" (.vStr "s")
          .String).get_value "c"
      = (State.emptyState.set_value "a" (.vInt 1) .Integer).get_value "c" ∧
    (State.emptyState.set_value "a" (.vInt 1) .Integer).get_value "c" = none ∧
    (State.emptyState.set_value "a" (.vInt 1) .Integer).set_value "b" (.vStr "s") .String
      = State.state "b" (.vStr "s") .String
          (State.emptyState.set_value "a" (.vInt 1) .Integer) := by
  obtain ⟨h1, h2, h3, h4⟩ :=
    env_lookup_extend_contract (State.emptyState.set_value "a" (.vInt 1) .Integer) "b"
      (.vStr "s") .String "c"
  exact ⟨h1, h2 (by decide), h3 (by decide), h4⟩

/-- C2: Assign type-fixing.  Given that the value sub-expression evaluates to
`(v, vt, s1)`: if `s1` binds the target name at a different type the Assign
fails with the `InterpTypeError` class; if the name is unbound the assignment
succeeds whatever `vt` is; if the name is bound at the same type the
assignment succeeds and the extended state's lookup returns the new value.
Moreover (last conjunct) every successful evaluation step preserves the type
tag of every name already bound in the incoming state, so in any state
reachable by evaluation from the empty state a bound name's type never
changes. -/
theorem assign_type_fixing :
    (∀ fuel variable_name value s v vt s1,
        evaluate fuel value s = .ok v vt s1 →
        (∀ w t, s1.get_value variable_name = some (w, t) → t ≠ vt →
            (evaluate (fuel + 1) (.Assign variable_name value) s).isInterpTypeError
              = true) ∧
        (s1.get_value variable_name = none →
            evaluate (fuel + 1) (.Assign variable_name value) s
              = .ok v vt (s1.set_value variable_name v vt)) ∧
        (∀ w, s1.get_value variable_name = some (w, vt) →
            evaluate (fuel + 1) (.Assign variable_name value) s
              = .ok v vt (s1.set_value variable_name v vt) ∧
            (s1.set_value variable_name v vt).get_value variable_name
              = some (v, vt))) ∧
    (∀ fuel e s v t s', evaluate fuel e s = .ok v t s' → typesOk s s') := by
  constructor
  · intro fuel variable_name value s v vt s1 hV
    refine ⟨?_, ?_, ?_⟩
    · intro w t hget hne
      simp only [evaluate, hV, Result.andThen, hget]
      rw [if_pos (Ne.symm hne)]
      rfl
    · intro hget
      simp only [evaluate, hV, Result.andThen, hget]
    · intro w hget
      constructor
      · simp only [evaluate, hV, Result.andThen, hget]
        rw [if_neg (fun hh => hh rfl)]
      · simp [State.set_value, State.get_value]
  · exact fun fuel => (evaluate_typesOk fuel).1

/-- Witness for C2: a mismatched re-assignment raises the type error, a
first-time binding succeeds, a same-type rebinding succeeds and is what
lookup sees afterwards, and a concrete evaluation preserves binding types. -/
theorem assign_type_fixing_witness :
    (evaluate 2 (.Assign "x" (.StringLiteral "hi"))
        (.state "x" (.vInt 5) .Integer .emptyState)).isInterpTypeError = true ∧
    evaluate 2 (.Assign "x" (.IntLiteral 5)) .emptyState
      = .ok (.vInt 5) .Integer (State.emptyState.set_value "x" (.vInt 5) .Integer) ∧
    evaluate 2 (.Assign "x" (.IntLiteral 2)) (.state "x" (.vInt 5) .Integer .emptyState)
      = .ok (.vInt 2) .Integer
          ((State.state "x" (.vInt 5) .Integer .emptyState).set_value "x" (.vInt 2)
            .Integer) ∧
    ((State.state "x" (.vInt 5) .Integer .emptyState).set_value "x" (.vInt 2)
          .Integer).get_value "x"
      = some (.vInt 2, .Integer) ∧
    typesOk (.state "x" (.vInt 5) .Integer .emptyState)
      (.state "x" (.vInt 2) .Integer (.state "x" (.vInt 5) .Integer .emptyState)) := by
  obtain ⟨hMain, hInv⟩ := assign_type_fixing
  refine ⟨?_, ?_, ?_, ?_, ?_⟩
  · exact (hMain 1 "x" (.StringLiteral "hi") (.state "x" (.vInt 5) .Integer .emptyState)
      (.vStr "hi") .String (.state "x" (.vInt 5) .Integer .emptyState) (by decide)).1
      (.vInt 5) .Integer (by decide) (by decide)
  · exact (hMain 1 "x" (.IntLiteral 5) .emptyState (.vInt 5) .Integer .emptyState
      (by decide)).2.1 (by decide)
  · exact ((hMain 1 "x" (.IntLiteral 2) (.state "x" (.vInt 5) .Integer .emptyState)
      (.vInt 2) .Integer (.state "x" (.vInt 5) .Integer .emptyState) (by decide)).2.2
      (.vInt 5) (by decide)).1
  · exact ((hMain 1 "x" (.IntLiteral 2) (.state "x" (.vInt 5) .Integer .emptyState)
      (.vInt 2) .Integer (.state "x" (.vInt 5) .Integer .emptyState) (by decide)).2.2
      (.vInt 5) (by decide)).2
  · exact hInv 2 (.Assign "x" (.IntLiteral 2)) (.state "x" (.vInt 5) .Integer .emptyState)
      (.vInt 2) .Integer
      (.state "x" (.vInt 2) .Integer (.state "x" (.vInt 5) .Integer .emptyState))
      (by decide)

/-- Shape of a normal `whileLoop` outcome: the value is always the boolean
`false`, and the final type and state either are the ones the loop was
entered with (zero further iterations, entry value falsy) or come from the
last condition evaluation, whose value was falsy. -/
theorem whileLoop_ok_shape :
    ∀ fuel c b cv ct s v t s', whileLoop fuel c b cv ct s = .ok v t s' →
      v = .vBool false ∧
      ((cv.truthy = false ∧ t = ct ∧ s' = s) ∨
        ∃ f2 s0 cv2, evaluate f2 c s0 = .ok cv2 t s' ∧ cv2.truthy = false) := by
  intro fuel
  induction fuel with
  | zero =>
    intro c b cv ct s v t s' h
    cases hcv : cv.truthy
    · simp only [whileLoop, hcv, Bool.false_eq_true, if_false] at h
      obtain ⟨h1, h2, h3⟩ := (Result.ok.injEq ..).mp h
      exact ⟨h1.symm, .inl ⟨rfl, h2.symm, h3.symm⟩⟩
    · simp only [whileLoop, hcv, if_true] at h
      exact Result.noConfusion h
  | succ fuel ih =>
    intro c b cv ct s v t s' h
    cases hcv : cv.truthy
    · simp only [whileLoop, hcv, Bool.false_eq_true, if_false] at h
      obtain ⟨h1, h2, h3⟩ := (Result.ok.injEq ..).mp h
      exact ⟨h1.symm, .inl ⟨rfl, h2.symm, h3.symm⟩⟩
    · simp only [whileLoop, hcv, if_true] at h
      obtain ⟨v1, t1, s1, h1, h⟩ := Result.andThen_eq_ok h
      obtain ⟨cv2, ct2, s2, h2, h⟩ := Result.andThen_eq_ok h
      obtain ⟨hv, hrest⟩ := ih c b cv2 ct2 s2 v t s' h
      refine ⟨hv, .inr ?_⟩
      rcases hrest with ⟨hfalse, rfl, rfl⟩ | ⟨f2, s0, cv3, h3, h4⟩
      · exact ⟨fuel, s1, cv2, h2, hfalse⟩
      · exact ⟨f2, s0, cv3, h3, h4⟩

/-- C3: While result shape.  A `While` node whose evaluation terminates
normally returns the boolean value `false` — never the body's last value —
and its type tag and final state are exactly those produced by an evaluation
of the condition whose value was falsy (for zero iterations this is the
initial condition evaluation, whose checked tag is Boolean). -/
theorem while_result_shape :
    ∀ fuel c b s v t s', evaluate fuel (.While c b) s = .ok v t s' →
      v = .vBool false ∧
      ∃ f2 s0 cv, evaluate f2 c s0 = .ok cv t s' ∧ cv.truthy = false := by
  intro fuel c b s v t s' h
  cases fuel with
  | zero => exact Result.noConfusion h
  | succ fuel =>
    simp only [evaluate] at h
    obtain ⟨cv, ct, s1, hC, h⟩ := Result.andThen_eq_ok h
    split at h
    · obtain ⟨hv, hrest⟩ := whileLoop_ok_shape fuel c b cv .Boolean s1 v t s' h
      refine ⟨hv, ?_⟩
      rcases hrest with ⟨hfalse, rfl, rfl⟩ | hex
      · exact ⟨fuel, s, cv, hC, hfalse⟩
      · exact hex
    · exact Result.noConfusion h

/-- Witness for C3 on the spec's own example: `While(Lt(i, 3), Assign(i, i+1))`
from `i = 0` terminates with value `false`, type Boolean, and `i = 3` at the
head of the final environment. -/
theorem while_result_shape_witness :
    (Value.vBool false = Value.vBool false) ∧
    ∃ f2 s0 cv,
      evaluate f2 (.Lt (.Variable "i") (.IntLiteral 3)) s0
        = .ok cv .Boolean
            (.state "i" (.vInt 3) .Integer (.state "i" (.vInt 2) .Integer
              (.state "i" (.vInt 1) .Integer
                (.state "i" (.vInt 0) .Integer .emptyState)))) ∧
      cv.truthy = false :=
  while_result_shape 20 (.Lt (.Variable "i") (.IntLiteral 3))
    (.Assign "i" (.Add (.Variable "i") (.IntLiteral 1)))
    (.state "i" (.vInt 0) .Integer .emptyState) (.vBool false) .Boolean
    (.state "i" (.vInt 3) .Integer (.state "i" (.vInt 2) .Integer
      (.state "i" (.vInt 1) .Integer (.state "i" (.vInt 0) .Integer .emptyState))))
    (by decide)

/-- C4 (amended): the While condition's type is required to be Boolean exactly
once, BEFORE any iteration (first conjunct); it is NOT re-checked after
iterations: the loop decides further iteration on the re-evaluated condition
value's truthiness alone and, once that value is falsy, returns normally with
whatever type tag the last condition evaluation produced — Boolean or not
(second conjunct, stated for an arbitrary tag `ct`). -/
theorem while_condition_checked_once :
    (∀ fuel c b s cv ct s1, evaluate fuel c s = .ok cv ct s1 → ct ≠ .Boolean →
        (evaluate (fuel + 1) (.While c b) s).isInterpTypeError = true) ∧
    (∀ fuel c b cv ct s, cv.truthy = false →
        whileLoop fuel c b cv ct s = .ok (.vBool false) ct s) := by
  constructor
  · intro fuel c b s cv ct s1 hC hct
    simp only [evaluate, hC, Result.andThen]
    cases ct
    case Boolean => exact absurd rfl hct
    all_goals rfl
  · intro fuel c b cv ct s hcv
    cases fuel <;> simp [whileLoop, hcv]

/-- Witness for C4 (amended): a non-Boolean initial condition type errors out
before the loop, and a loop entered with a falsy value and the non-Boolean
tag `Integer` returns `(false, Integer, s)` without any error. -/
theorem while_condition_checked_once_witness :
    (evaluate 2 (.While (.IntLiteral 0) .Ren) .emptyState).isInterpTypeError = true ∧
    whileLoop 3 (.Variable "c") .Ren (.vInt 0) .Integer .emptyState
      = .ok (.vBool false) .Integer .emptyState := by
  obtain ⟨h1, h2⟩ := while_condition_checked_once
  exact ⟨h1 1 (.IntLiteral 0) .Ren .emptyState (.vInt 0) .Integer .emptyState
      (by decide) (by decide),
    h2 3 (.Variable "c") .Ren (.vInt 0) .Integer .emptyState (by decide)⟩

/-- Counterexample to C4 as stated: the claim demands a TypeError whenever the
condition evaluates to a non-Boolean type at a re-check after an iteration.
Here the condition `If(x == 0, true, 0)` has type Boolean before the loop but
type Integer after the first iteration (which sets `x := 1`), yet evaluation
succeeds — returning value `false` with the non-Boolean tag `Integer`, which
itself shows the condition's last evaluation was non-Boolean and raised
nothing. -/
theorem while_no_recheck_counterexample :
    evaluate 30 (.Program [.Assign "x" (.IntLiteral 0),
        .While (.If (.Eq (.Variable "x") (.IntLiteral 0)) (.BooleanLiteral true)
            (.IntLiteral 0))
          (.Assign "x" (.IntLiteral 1))]) .emptyState
      = .ok (.vBool false) .Integer
          (.state "x" (.vInt 1) .Integer (.state "x" (.vInt 0) .Integer .emptyState)) ∧
    (evaluate 30 (.Program [.Assign "x" (.IntLiteral 0),
        .While (.If (.Eq (.Variable "x") (.IntLiteral 0)) (.BooleanLiteral true)
            (.IntLiteral 0))
          (.Assign "x" (.IntLiteral 1))]) .emptyState).isInterpTypeError = false := by
  decide

/-- C5: divide-by-zero.  Whenever both `Divide` operands evaluate normally to
the same type tag and the right operand's value is numerically equal to
`0`/`0.0` (Python `==`), evaluation fails with `InterpMathError`; no
constraint on the shared tag is needed because the zero check runs before the
type-specific branch. -/
theorem divide_by_zero_math_error :
    ∀ fuel l r s lv lt s1 rv s2,
      evaluate fuel l s = .ok lv lt s1 →
      evaluate fuel r s1 = .ok rv lt s2 →
      (rv.pyEqIntZero || rv.pyEqFloatZero) = true →
      evaluate (fuel + 1) (.Divide l r) s = .err .interpMathError := by
  intro fuel l r s lv lt s1 rv s2 hL hR hz
  simp only [evaluate, hL, hR, Result.andThen]
  rw [if_neg (fun hh => hh rfl), if_pos hz]

/-- Witness for C5 on the spec's two examples: `1 / 0` and `1.0 / 0.0` both
raise `InterpMathError`. -/
theorem divide_by_zero_math_error_witness :
    evaluate 2 (.Divide (.IntLiteral 1) (.IntLiteral 0)) .emptyState
      = .err .interpMathError ∧
    evaluate 2 (.Divide (.FloatingPointLiteral 1) (.FloatingPointLiteral 0)) .emptyState
      = .err .interpMathError :=
  ⟨divide_by_zero_math_error 1 (.IntLiteral 1) (.IntLiteral 0) .emptyState (.vInt 1)
      .Integer .emptyState (.vInt 0) .emptyState (by decide) (by decide) (by decide),
    divide_by_zero_math_error 1 (.FloatingPointLiteral 1) (.FloatingPointLiteral 0)
      .emptyState (.vFloat 1) .FloatingPoint .emptyState (.vFloat 0) .emptyState
      (by decide) (by decide) (by decide)⟩

/-- C6 (amended): a `Divide` whose operands share a tag other than `Integer`
and `FloatingPoint` fails with the `InterpTypeError` class PROVIDED the right
operand's value is not numerically equal to zero; when it is (the Boolean
value `False`, for which Python's `False == 0` holds), the upfront
divide-by-zero check fires first and raises `InterpMathError` instead. -/
theorem divide_unsupported_nonzero_type_error :
    ∀ fuel l r s lv lt s1 rv s2,
      evaluate fuel l s = .ok lv lt s1 →
      evaluate fuel r s1 = .ok rv lt s2 →
      lt ≠ .Integer → lt ≠ .FloatingPoint →
      rv.pyEqIntZero = false → rv.pyEqFloatZero = false →
      (evaluate (fuel + 1) (.Divide l r) s).isInterpTypeError = true := by
  intro fuel l r s lv lt s1 rv s2 hL hR hInt hFloat hz1 hz2
  simp only [evaluate, hL, hR, Result.andThen]
  rw [if_neg (fun hh => hh rfl), if_neg (by simp [hz1, hz2])]
  cases lt
  case Integer => exact absurd rfl hInt
  case FloatingPoint => exact absurd rfl hFloat
  all_goals rfl

/-- Witness for C6 (amended): dividing two Strings (right value `"b"`, not
numerically zero) raises the type error. -/
theorem divide_unsupported_nonzero_type_error_witness :
    (evaluate 2 (.Divide (.StringLiteral "a") (.StringLiteral "b"))
        .emptyState).isInterpTypeError = true :=
  divide_unsupported_nonzero_type_error 1 (.StringLiteral "a") (.StringLiteral "b")
    .emptyState (.vStr "a") .String .emptyState (.vStr "b") .emptyState
    (by decide) (by decide) (by decide) (by decide) (by decide) (by decide)

/-- Counterexample to C6 as stated: `Divide(True, False)` has both operands of
type Boolean — neither Integer nor FloatingPoint — so the claim demands a
TypeError-class failure; but Python's numeric equality makes `False == 0`
true, so the divide-by-zero check fires first and the evaluation instead
fails with `InterpMathError`. -/
theorem divide_bool_false_counterexample :
    evaluate 2 (.Divide (.BooleanLiteral true) (.BooleanLiteral false)) .emptyState
      = .err .interpMathError ∧
    (evaluate 2 (.Divide (.BooleanLiteral true) (.BooleanLiteral false))
        .emptyState).isInterpTypeError = false := by
  decide

/-- C7: division semantics.  Two Integer operands with nonzero right value
yield the exact quotient truncated toward zero (Python `int(a / b)`) with tag
Integer; two FloatingPoint operands with nonzero right value yield the exact
(full-precision) quotient with tag FloatingPoint. -/
theorem divide_semantics :
    (∀ fuel l r s a s1 b s2,
        evaluate fuel l s = .ok (.vInt a) .Integer s1 →
        evaluate fuel r s1 = .ok (.vInt b) .Integer s2 →
        b ≠ 0 →
        evaluate (fuel + 1) (.Divide l r) s
          = .ok (.vInt (ratTrunc ((a : ℚ) / (b : ℚ)))) .Integer s2) ∧
    (∀ fuel l r s qa s1 qb s2,
        evaluate fuel l s = .ok (.vFloat qa) .FloatingPoint s1 →
        evaluate fuel r s1 = .ok (.vFloat qb) .FloatingPoint s2 →
        qb ≠ 0 →
        evaluate (fuel + 1) (.Divide l r) s
          = .ok (.vFloat (qa / qb)) .FloatingPoint s2) := by
  constructor
  · intro fuel l r s a s1 b s2 hL hR hb
    simp only [evaluate, hL, hR, Result.andThen]
    rw [if_neg (fun hh => hh rfl),
      if_neg (by simp [Value.pyEqIntZero, Value.pyEqFloatZero, hb])]
    simp [Value.pyEqIntZero, Value.pyEqFloatZero, hb, pyDiv]
  · intro fuel l r s qa s1 qb s2 hL hR hqb
    simp only [evaluate, hL, hR, Result.andThen]
    rw [if_neg (fun hh => hh rfl),
      if_neg (by simp [Value.pyEqIntZero, Value.pyEqFloatZero, hqb])]
    simp [Value.pyEqIntZero, Value.pyEqFloatZero, hqb, pyDiv]

/-- Witness for C7 on the spec's examples: `7 / 2 = 3` at type Integer and
`7.0 / 2.0 = 3.5` at type FloatingPoint. -/
theorem divide_semantics_witness :
    evaluate 2 (.Divide (.IntLiteral 7) (.IntLiteral 2)) .emptyState
      = .ok (.vInt 3) .Integer .emptyState ∧
    evaluate 2 (.Divide (.FloatingPointLiteral 7) (.FloatingPointLiteral 2)) .emptyState
      = .ok (.vFloat (7 / 2)) .FloatingPoint .emptyState := by
  constructor
  · have h := divide_semantics.1 1 (.IntLiteral 7) (.IntLiteral 2) .emptyState 7
      .emptyState 2 .emptyState (by decide) (by decide) (by decide)
    rw [h]
    norm_num [ratTrunc]
  · exact divide_semantics.2 1 (.FloatingPointLiteral 7) (.FloatingPointLiteral 2)
      .emptyState 7 .emptyState 2 .emptyState (by decide) (by decide) (by decide)

/-- C8: no short-circuit in And/Or.  Both operands are always evaluated left
to right: whenever the left operand evaluates to a Boolean and the right
operand then evaluates to a Boolean producing state `s2`, the And/Or node
returns the conjunction/disjunction with the RIGHT operand's final state
`s2` — also when the left value alone already determines the result (left
`false` for And, left `true` for Or), so the right operand's binding effects
are present in the returned environment. -/
theorem and_or_no_short_circuit :
    ∀ fuel l r s a b s1 s2,
      evaluate fuel l s = .ok (.vBool a) .Boolean s1 →
      evaluate fuel r s1 = .ok (.vBool b) .Boolean s2 →
      evaluate (fuel + 1) (.And l r) s = .ok (.vBool (a && b)) .Boolean s2 ∧
      evaluate (fuel + 1) (.Or l r) s = .ok (.vBool (a || b)) .Boolean s2 := by
  intro fuel l r s a b s1 s2 hL hR
  constructor <;> simp only [evaluate, hL, hR, Result.andThen] <;>
    cases a <;> cases b <;> simp [pyAnd, pyOr, Value.truthy]

/-- Witness for C8: an `Assign` inside the right operand takes effect even
when the left operand decides the result (`false` for And, `true` for Or):
the binding appears in the returned environment. -/
theorem and_or_no_short_circuit_witness :
    evaluate 6 (.And (.BooleanLiteral false)
        (.Sequence [.Assign "y" (.IntLiteral 1), .BooleanLiteral true])) .emptyState
      = .ok (.vBool false) .Boolean (.state "y" (.vInt 1) .Integer .emptyState) ∧
    evaluate 6 (.Or (.BooleanLiteral true)
        (.Sequence [.Assign "z" (.IntLiteral 2), .BooleanLiteral false])) .emptyState
      = .ok (.vBool true) .Boolean (.state "z" (.vInt 2) .Integer .emptyState) := by
  obtain ⟨hAnd, -⟩ := and_or_no_short_circuit 5 (.BooleanLiteral false)
    (.Sequence [.Assign "y" (.IntLiteral 1), .BooleanLiteral true]) .emptyState
    false true .emptyState (.state "y" (.vInt 1) .Integer .emptyState)
    (by decide) (by decide)
  obtain ⟨-, hOr⟩ := and_or_no_short_circuit 5 (.BooleanLiteral true)
    (.Sequence [.Assign "z" (.IntLiteral 2), .BooleanLiteral false]) .emptyState
    true false .emptyState (.state "z" (.vInt 2) .Integer .emptyState)
    (by decide) (by decide)
  exact ⟨hAnd, hOr⟩

/-- C9: Assign's prior-binding lookup uses the post-evaluation environment.
Even when the target name is UNBOUND in the state the Assign starts from, a
binding for it introduced while evaluating the value sub-expression is what
the type check compares against: if that binding's type differs from the
computed value's type, the Assign fails with the `InterpTypeError` class. -/
theorem assign_checks_post_eval_env :
    ∀ fuel variable_name value s v vt s1 w t,
      s.get_value variable_name = none →
      evaluate fuel value s = .ok v vt s1 →
      s1.get_value variable_name = some (w, t) →
      t ≠ vt →
      (evaluate (fuel + 1) (.Assign variable_name value) s).isInterpTypeError
        = true := by
  intro fuel variable_name value s v vt s1 w t hnone hV hget hne
  simp only [evaluate, hV, Result.andThen, hget]
  rw [if_pos (Ne.symm hne)]
  rfl

/-- Witness for C9: `Assign(x, Sequence[Assign(x, "hi"), 5])` from the empty
state — `x` is unbound at the start, the value sub-expression binds `x` to a
String, the Sequence yields the Integer `5`, and the type check against the
fresh String binding fails. -/
theorem assign_checks_post_eval_env_witness :
    (evaluate 5 (.Assign "x"
        (.Sequence [.Assign "x" (.StringLiteral "hi"), .IntLiteral 5]))
        .emptyState).isInterpTypeError = true :=
  assign_checks_post_eval_env 4 "x"
    (.Sequence [.Assign "x" (.StringLiteral "hi"), .IntLiteral 5]) .emptyState
    (.vInt 5) .Integer (.state "x" (.vStr "hi") .String .emptyState) (.vStr "hi")
    .String (by decide) (by decide) (by decide) (by decide)

/-- C10: an empty `Sequence`/`Program` never returns a triple for any fuel,
and with enough fuel to reach the case it fails with the host-level
`UnboundLocalError` on the local `value` — which is none of the three
classified interpreter error classes. -/
theorem empty_sequence_host_error :
    ∀ fuel s,
      (∀ v t s', evaluate fuel (.Sequence []) s ≠ .ok v t s') ∧
      (∀ v t s', evaluate fuel (.Program []) s ≠ .ok v t s') ∧
      evaluate (fuel + 1) (.Sequence []) s = .err (.unboundLocalError "value") ∧
      evaluate (fuel + 1) (.Program []) s = .err (.unboundLocalError "value") ∧
      (∀ m, EvalError.unboundLocalError "value" ≠ .interpSyntaxError m) ∧
      (∀ m, EvalError.unboundLocalError "value" ≠ .interpTypeError m) ∧
      EvalError.unboundLocalError "value" ≠ .interpMathError := by
  intro fuel s
  refine ⟨?_, ?_, ?_, ?_, ?_, ?_, ?_⟩
  · intro v t s' h
    cases fuel with
    | zero => exact Result.noConfusion h
    | succ f =>
      simp only [evaluate, evalSequence] at h
      exact Result.noConfusion h
  · intro v t s' h
    cases fuel with
    | zero => exact Result.noConfusion h
    | succ f =>
      simp only [evaluate, evalSequence] at h
      exact Result.noConfusion h
  · simp only [evaluate, evalSequence]
  · simp only [evaluate, evalSequence]
  · intro m h; exact EvalError.noConfusion h
  · intro m h; exact EvalError.noConfusion h
  · intro h; exact EvalError.noConfusion h

/-- Witness for C10 at fuel 2 and the empty state. -/
theorem empty_sequence_host_error_witness :
    evaluate 2 (.Sequence []) .emptyState ≠ .ok .vNone .Unit .emptyState ∧
    evaluate 3 (.Sequence []) .emptyState = .err (.unboundLocalError "value") ∧
    evaluate 3 (.Program []) .emptyState = .err (.unboundLocalError "value") ∧
    EvalError.unboundLocalError "value" ≠ .interpMathError := by
  obtain ⟨h1, h2, h3, h4, h5, h6, h7⟩ := empty_sequence_host_error 2 .emptyState
  exact ⟨h1 .vNone .Unit .emptyState, h3, h4, h7⟩

end Stimpl
